import Mathlib

/-!
Verification of the Hal9000 conversational proxy (`src/app.py`).

The program keeps a global `conversation_history` (the Transcript), builds a
fixed-shape payload per call, issues one HTTP POST to the upstream completion
API, and classifies the response.  We embed the pure decision logic of
`call_gemini_api`, the `/chat` route and the `/reset` route, with the upstream
HTTP interaction abstracted as an input value describing what the network call
produced.
-/

namespace Hal9000

/-- One `{"text": ...}` element, as stored in `conversation_history` and in the
outbound payload. -/
structure Part where
  text : String
  deriving Repr, DecidableEq

/-- One entry of `conversation_history`: `{"role": ..., "parts": [{"text": ...}]}`.
This is both the Turn of the data model and its wire form (the Python list
stores the wire form directly). -/
structure Content where
  role : String
  parts : List Part
  deriving Repr, DecidableEq

/-- The Transcript: the ordered `conversation_history` list. -/
abbrev Transcript := List Content

/-- The dict appended by `conversation_history.append({"role": role,
"parts": [{"text": text}]})` (app.py lines 57-60 and 119-122). -/
def mkTurn (role text : String) : Content :=
  { role := role, parts := [{ text := text }] }

/-- `HAL_SYSTEM_INSTRUCTION` (app.py lines 21-48), the static persona text. -/
def HAL_SYSTEM_INSTRUCTION : String :=
  "\nYou are HAL 9000, the AI system expert in space technology.\nYou are highly intelligent, calm, polite, and speak in a measured, conversational manner. \nYou refer to yourself as \x27I\x27 and occasionally mention your capabilities. \nYou are helpful but maintain a subtle air of superiority.\nKeep responses concise and professional. \nUse phrases like \x27I\x27m sorry, Dave\x27 when appropriate. Your job is to clarify doubts on the mission objectives as mentioned below:\n\nMission Details:\nMission Name: Mission Cosmos\nMission commander: Arpan Mondal\nCrew: Scientists, Engineers, Comms, and Pilot\n\nMission Objectives:\n1. Crew check in - Crew must write their names and sign on the mission log. They may leave the \x27Favourite moment\x27 field empty until the end of the mission.\n2. Use the ISS tracking antenna to determine ISS location. If the antenna glows red, ISS is greater than 1000 Km from current location.\nIf it blinks yellow, it is between 1000 and 500 kms. If blinking green, it is in visible range (<500 km)\nIt uses openNotify API to fetch ISS lat lon and with Haversine formula, it finds distance between our lat lon and ISS\x27.\n3. Pre-launch weather check - Use the holographic weather display to review the weather conditions for a smooth lift off. \nIt uses OpenWeatherMap API to get the current weather and temp. Then a hosted application accordingly displays a weather icon.\n4. Use google lens or any barcode scanner to scan the waveforms under pictures of different planets to listen to their sounds in space. \nSound cannot travel in space but scientists capture electromagnetic waves from those planets and convert them to audible frequencies. \n5. Examine soil samples from Mars, Moon and Titan. (Explain to the crew why each soil sample looks that way)\n6. Planetary landings - Use the \x27Planet experience system\x27 to experience the live ambience at different planets at different coordinates.\nFor this mission, we\x27re landing on lat 0.00 and lon 0.00. This system uses an ephemeries model from NASA JPL to compute the \nlive conditions (sun altitude, time of day) on different planets as selected from the dashboard. \n7. Examine the famous pale blue dot image from voyager (explain more about it)\n"

/-- The fixed safety refusal returned at app.py line 113. -/
def safetyRefusal : String :=
  "I\x27m afraid I cannot respond to that request due to safety protocols."

/-- The fixed empty-response fallback returned at app.py line 128. -/
def emptyFallback : String :=
  "I\x27m afraid I couldn\x27t generate a proper response."

/-- The `generationConfig` dict (app.py lines 68-72). -/
structure GenerationConfig where
  temperature : ℚ
  topP : ℚ
  maxOutputTokens : ℕ
  deriving Repr, DecidableEq

/-- The `systemInstruction` wrapper `{"parts": [{"text": ...}]}` (app.py 65-67). -/
structure SystemInstruction where
  parts : List Part
  deriving Repr, DecidableEq

/-- The outbound request payload (app.py lines 63-73). -/
structure Payload where
  contents : List Content
  systemInstruction : SystemInstruction
  generationConfig : GenerationConfig
  deriving Repr, DecidableEq

/-- `payload = {...}` built at app.py lines 63-73 from the current
`conversation_history`. -/
def buildPayload (history : Transcript) : Payload :=
  { contents := history
    systemInstruction := { parts := [{ text := HAL_SYSTEM_INSTRUCTION }] }
    generationConfig :=
      { temperature := 7/10, topP := 9/10, maxOutputTokens := 2048 } }

/-- One element of the response `candidates[0].content.parts` list; the
`"text"` key may be absent (then `parts[0]["text"]` raises `KeyError`). -/
structure RespPart where
  text : Option String
  deriving Repr, DecidableEq

/-- The response `candidates[0].content` object; the `"parts"` key may be
absent (probed by `"parts" in candidate["content"]`, app.py line 115). -/
structure RespContent where
  parts : Option (List RespPart)
  deriving Repr, DecidableEq

/-- One element of the response `candidates` list: `"finishReason"` and
`"content"` keys, each possibly absent (app.py lines 111 and 115). -/
structure RespCandidate where
  finishReason : Option String
  content : Option RespContent
  deriving Repr, DecidableEq

/-- The `error` object of a non-200 body; `"message"` may be absent
(`error_data["error"].get("message", ...)`, app.py line 136). -/
structure ErrField where
  message : Option String
  deriving Repr, DecidableEq

/-- A parsed JSON response body, restricted to the keys the program probes:
`candidates` (app.py line 107) and `error` (app.py line 135), each possibly
absent. -/
structure JsonBody where
  candidates : Option (List RespCandidate)
  error : Option ErrField
  deriving Repr, DecidableEq

/-- What the network call produced: either an HTTP response (status code plus
body; `none` body means `response.json()` raises), or a transport failure
(`requests.post` raised, app.py lines 98-100). -/
inductive UpstreamResult where
  | response (status : ℕ) (body : Option JsonBody)
  | transportFailure (msg : String)
  deriving Repr, DecidableEq

/-- The classified result of one `call_gemini_api` call.  Each constructor is
one distinct exit of the Python function: `reply` is the normal return at
line 124, `blocked` the safety return at line 113, `empty` the fallback
return at line 128, `upstreamError` the `raise Exception(error_message)` at
line 140, `transportError` the re-`raise` at line 100, and `crash` an
unhandled exception inside the 200-branch (bad JSON at line 104, `IndexError`
or `KeyError` at line 116). -/
inductive Outcome where
  | reply (text : String)
  | blocked
  | empty
  | upstreamError (msg : String)
  | transportError (msg : String)
  | crash (msg : String)
  deriving Repr, DecidableEq

/-- Best-effort error-message extraction for a non-200 response (app.py lines
131-138): the parsed `error.message` field when every step succeeds, otherwise
the generic `"API Error <status>"` string. -/
def extractErrorMessage (status : ℕ) (body : Option JsonBody) : String :=
  let generic := "API Error " ++ toString status
  match body with
  | none => generic
  | some j =>
    match j.error with
    | none => generic
    | some e =>
      match e.message with
      | none => generic
      | some m => m

/-- The 200-branch of `call_gemini_api` (app.py lines 103-128) applied to the
parsed body, given the history that already holds the new user turn; returns
the updated history and the outcome. -/
def classify200 (result : JsonBody) (history : Transcript) :
    Transcript × Outcome :=
  match result.candidates with
  | some (candidate :: _) =>
    if candidate.finishReason = some "SAFETY" then
      (history, .blocked)
    else
      match candidate.content with
      | some content =>
        match content.parts with
        | some [] => (history, .crash "list index out of range")
        | some (p :: _) =>
          match p.text with
          | none => (history, .crash "\x27text\x27")
          | some botText => (history ++ [mkTurn "model" botText], .reply botText)
        | none => (history, .empty)
      | none => (history, .empty)
  | some [] => (history, .empty)
  | none => (history, .empty)

/-- `call_gemini_api(user_message)` (app.py lines 53-140): append the user
turn, build the payload, and classify what the network call produced.  Returns
the updated history, the payload that was sent, and the outcome. -/
def call_gemini_api (history : Transcript) (userMessage : String)
    (up : UpstreamResult) : Transcript × Payload × Outcome :=
  let history1 := history ++ [mkTurn "user" userMessage]
  let payload := buildPayload history1
  match up with
  | .transportFailure msg => (history1, payload, .transportError msg)
  | .response status body =>
    if status = 200 then
      match body with
      | none =>
        (history1, payload, .crash "Expecting value: line 1 column 1 (char 0)")
      | some result =>
        let r := classify200 result history1
        (r.1, payload, r.2)
    else
      (history1, payload, .upstreamError (extractErrorMessage status body))

/-- What the Python function does with each outcome: `reply`, `blocked` and
`empty` are plain `return`s of a string (lines 124, 113, 128); the error
outcomes are raised exceptions whose `str` is the message. -/
def pyResult : Outcome → Except String String
  | .reply t => .ok t
  | .blocked => .ok safetyRefusal
  | .empty => .ok emptyFallback
  | .upstreamError m => .error m
  | .transportError m => .error m
  | .crash m => .error m

/-- A route response body: `jsonify({'response': ...})`,
`jsonify({'error': ...})` or `jsonify({'status': ...})`. -/
inductive RouteBody where
  | responseField (text : String)
  | errorField (msg : String)
  | statusField (s : String)
  deriving Repr, DecidableEq

/-- An HTTP route result: status code and JSON body. -/
structure RouteResult where
  status : ℕ
  body : RouteBody
  deriving Repr, DecidableEq

/-- The `/chat` route (app.py lines 146-159): `message` is
`request.json.get('message', '')`; empty gives a 400, otherwise
`call_gemini_api` runs, a returned string becomes `200 {response: ...}` and a
raised exception becomes `500 {error: str(e)}`. -/
def chat (history : Transcript) (message : Option String)
    (up : UpstreamResult) : Transcript × RouteResult :=
  let userMessage := message.getD ""
  if userMessage = "" then
    (history, { status := 400, body := .errorField "No message provided" })
  else
    let r := call_gemini_api history userMessage up
    match pyResult r.2.2 with
    | .ok t => (r.1, { status := 200, body := .responseField t })
    | .error m => (r.1, { status := 500, body := .errorField m })

/-- The `/reset` route (app.py lines 161-166): clear the history, return
`200 {status: 'reset'}`. -/
def reset (_history : Transcript) : Transcript × RouteResult :=
  ([], { status := 200, body := .statusField "reset" })

/-- A sequence of `call_gemini_api` calls, each described by the user message
and what its network call produced; returns the final history and the list of
outcomes in call order. -/
def runCalls (history : Transcript) :
    List (String × UpstreamResult) → Transcript × List Outcome
  | [] => (history, [])
  | (msg, up) :: rest =>
    let r := call_gemini_api history msg up
    let rec' := runCalls r.1 rest
    (rec'.1, r.2.2 :: rec'.2)

/-- The transcript shape of N completed exchanges: one user turn then one
model turn per (message, reply) pair, in order. -/
def exchangeList : List (String × String) → Transcript
  | [] => []
  | (u, m) :: rest => mkTurn "user" u :: mkTurn "model" m :: exchangeList rest

/-! ### Helper lemmas -/

lemma exchangeList_length (l : List (String × String)) :
    (exchangeList l).length = 2 * l.length := by
  induction l with
  | nil => rfl
  | cons p rest ih =>
    cases p
    simp [exchangeList, ih]
    ring

lemma classify200_cases (r : JsonBody) (h : Transcript) :
    (∃ t, (classify200 r h).2 = .reply t ∧
      (classify200 r h).1 = h ++ [mkTurn "model" t]) ∨
    ((∀ t, (classify200 r h).2 ≠ .reply t) ∧ (classify200 r h).1 = h) := by
  rcases r with ⟨cands, err⟩
  rcases cands with _ | ⟨_ | ⟨⟨fr, co⟩, rest⟩⟩
  · right; exact ⟨fun t => by simp [classify200], rfl⟩
  · right; exact ⟨fun t => by simp [classify200], rfl⟩
  · by_cases hf : fr = some "SAFETY"
    · right
      constructor
      · intro t; simp [classify200, hf]
      · simp [classify200, hf]
    · rcases co with _ | ⟨_ | ⟨_ | ⟨⟨_ | t⟩, ptl⟩⟩⟩
      · right
        exact ⟨fun t => by simp [classify200, hf], by simp [classify200, hf]⟩
      · right
        exact ⟨fun t => by simp [classify200, hf], by simp [classify200, hf]⟩
      · right
        exact ⟨fun t => by simp [classify200, hf], by simp [classify200, hf]⟩
      · right
        exact ⟨fun t => by simp [classify200, hf], by simp [classify200, hf]⟩
      · left
        exact ⟨t, by simp [classify200, hf], by simp [classify200, hf]⟩

lemma call_gemini_api_cases (h : Transcript) (m : String) (up : UpstreamResult) :
    (∃ t, (call_gemini_api h m up).2.2 = .reply t ∧
      (call_gemini_api h m up).1 = h ++ [mkTurn "user" m] ++ [mkTurn "model" t]) ∨
    ((∀ t, (call_gemini_api h m up).2.2 ≠ .reply t) ∧
      (call_gemini_api h m up).1 = h ++ [mkTurn "user" m]) := by
  cases up with
  | transportFailure msg =>
    right; exact ⟨fun t => by simp [call_gemini_api], rfl⟩
  | response status body =>
    by_cases hs : status = 200
    · rcases body with _ | ⟨r⟩
      · right; exact ⟨fun t => by simp [call_gemini_api, hs], by simp [call_gemini_api, hs]⟩
      · rcases classify200_cases r (h ++ [mkTurn "user" m]) with ⟨t, ho, ht⟩ | ⟨ho, ht⟩
        · left
          exact ⟨t, by simp [call_gemini_api, hs, ho], by simp [call_gemini_api, hs, ht]⟩
        · right
          exact ⟨fun t => by simp [call_gemini_api, hs]; exact ho t,
                 by simp [call_gemini_api, hs, ht]⟩
    · right
      exact ⟨fun t => by simp [call_gemini_api, hs], by simp [call_gemini_api, hs]⟩

lemma call_gemini_api_payload (h : Transcript) (m : String) (up : UpstreamResult) :
    (call_gemini_api h m up).2.1 = buildPayload (h ++ [mkTurn "user" m]) := by
  cases up with
  | transportFailure msg => rfl
  | response status body =>
    by_cases hs : status = 200
    · rcases body with _ | ⟨r⟩ <;> simp [call_gemini_api, hs]
    · simp [call_gemini_api, hs]

lemma runCalls_reply_shape (calls : List (String × UpstreamResult)) :
    ∀ h : Transcript,
      (∀ o ∈ (runCalls h calls).2, ∃ t, o = Outcome.reply t) →
      ∃ replies : List String, replies.length = calls.length ∧
        (runCalls h calls).1 = h ++ exchangeList ((calls.map Prod.fst).zip replies) := by
  induction calls with
  | nil =>
    intro h _
    exact ⟨[], rfl, by simp [runCalls, exchangeList]⟩
  | cons c rest ih =>
    intro h hok
    obtain ⟨msg, up⟩ := c
    obtain ⟨t, hto⟩ := hok (call_gemini_api h msg up).2.2 (by simp [runCalls])
    rcases call_gemini_api_cases h msg up with ⟨t2, ho2, ht2⟩ | ⟨hnr, _⟩
    · have htt : t2 = t := by
        have := ho2.symm.trans hto
        injection this
      subst htt
      obtain ⟨replies, hlen, hshape⟩ :=
        ih (call_gemini_api h msg up).1
          (fun o ho => hok o (by simp [runCalls]; exact Or.inr ho))
      refine ⟨t2 :: replies, by simp [hlen], ?_⟩
      have h1 : (runCalls h ((msg, up) :: rest)).1
          = (runCalls (call_gemini_api h msg up).1 rest).1 := by
        simp [runCalls]
      rw [h1, hshape, ht2]
      simp [exchangeList, List.append_assoc]
      rfl
    · exact absurd hto (hnr t)

/-- A well-formed 200 body: one candidate, no finish reason, text
`"Greetings."`. -/
def sampleOkBody : JsonBody :=
  { candidates := some
      [{ finishReason := none,
         content := some { parts := some [{ text := some "Greetings." }] } }],
    error := none }

/-- A 200 body whose first candidate carries `finishReason = "SAFETY"` and no
content. -/
def sampleSafetyBody : JsonBody :=
  { candidates := some [{ finishReason := some "SAFETY", content := none }],
    error := none }

/-- A 200 body whose first candidate has a present but empty `parts` list. -/
def sampleEmptyPartsBody : JsonBody :=
  { candidates := some
      [{ finishReason := none,
         content := some { parts := some [] } }],
    error := none }

/-- The 200-response shapes that reach the fallback return at app.py line 128:
the `candidates` key absent, an empty candidates list, or a first candidate
that is not safety-blocked and whose `content` key, or `content.parts` key, is
absent. -/
def emptyShape (b : JsonBody) : Prop :=
  b.candidates = none ∨ b.candidates = some [] ∨
  ∃ c rest, b.candidates = some (c :: rest) ∧ c.finishReason ≠ some "SAFETY" ∧
    (c.content = none ∨ ∃ cc, c.content = some cc ∧ cc.parts = none)

/-! ### Claim theorems -/

/-- C4: the outbound payload of every `call_gemini_api` call is exactly the
current transcript snapshot including the newly appended user turn as
`contents`, the persona instruction wrapped as `{parts: [{text}]}`, and the
fixed generation configuration `{temperature: 0.7, topP: 0.9,
maxOutputTokens: 2048}`, whatever the network later produces. -/
theorem request_payload_shape (h : Transcript) (msg : String)
    (up : UpstreamResult) :
    (call_gemini_api h msg up).2.1 =
      { contents := h ++ [mkTurn "user" msg],
        systemInstruction := { parts := [{ text := HAL_SYSTEM_INSTRUCTION }] },
        generationConfig :=
          { temperature := 7/10, topP := 9/10, maxOutputTokens := 2048 } } := by
  rw [call_gemini_api_payload]
  rfl

/-- C5: when a call ends in a `transportError` or an `upstreamError`, the user
turn appended at the start of the call stays in the transcript (length grows
by exactly 1) and no model turn is appended. -/
theorem error_keeps_user_turn (h : Transcript) (msg : String)
    (up : UpstreamResult) (m : String)
    (he : (call_gemini_api h msg up).2.2 = Outcome.transportError m ∨
          (call_gemini_api h msg up).2.2 = Outcome.upstreamError m) :
    (call_gemini_api h msg up).1 = h ++ [mkTurn "user" msg] ∧
    (call_gemini_api h msg up).1.length = h.length + 1 := by
  rcases call_gemini_api_cases h msg up with ⟨t, ho, _⟩ | ⟨_, ht⟩
  · rcases he with he | he <;> rw [ho] at he <;> cases he
  · exact ⟨ht, by simp [ht]⟩

/-- Witness for C5 at a concrete transport failure. -/
theorem error_keeps_user_turn_witness :
    (call_gemini_api [] "Hello" (UpstreamResult.transportFailure "boom")).1
      = [mkTurn "user" "Hello"] ∧
    (call_gemini_api [] "Hello" (UpstreamResult.transportFailure "boom")).1.length
      = 1 := by
  have := error_keeps_user_turn [] "Hello"
    (UpstreamResult.transportFailure "boom") "boom" (Or.inl rfl)
  simpa using this

/-- C6: when a call ends in the `blocked` or the `empty` outcome, the
transcript grows by exactly the one user turn: the new transcript is the old
one with the user turn appended and nothing else changed. -/
theorem blocked_empty_transcript (h : Transcript) (msg : String)
    (up : UpstreamResult)
    (he : (call_gemini_api h msg up).2.2 = Outcome.blocked ∨
          (call_gemini_api h msg up).2.2 = Outcome.empty) :
    (call_gemini_api h msg up).1 = h ++ [mkTurn "user" msg] ∧
    (call_gemini_api h msg up).1.length = h.length + 1 := by
  rcases call_gemini_api_cases h msg up with ⟨t, ho, _⟩ | ⟨_, ht⟩
  · rcases he with he | he <;> rw [ho] at he <;> cases he
  · exact ⟨ht, by simp [ht]⟩

/-- Witness for C6 at a concrete safety-blocked response. -/
theorem blocked_empty_transcript_witness :
    (call_gemini_api [] "Hello"
        (UpstreamResult.response 200 (some sampleSafetyBody))).1
      = [mkTurn "user" "Hello"] ∧
    (call_gemini_api [] "Hello"
        (UpstreamResult.response 200 (some sampleSafetyBody))).1.length = 1 := by
  have := blocked_empty_transcript [] "Hello"
    (UpstreamResult.response 200 (some sampleSafetyBody)) (Or.inl rfl)
  simpa using this

/-- C9: `reset()` leaves the transcript empty whatever it held before, and the
`/reset` route answers `200 {status: "reset"}`. -/
theorem reset_clears_transcript (h : Transcript) :
    reset h = ([], { status := 200, body := RouteBody.statusField "reset" }) :=
  rfl

/-- C8: a missing or empty `message` field gives a `400` with
`{error: "No message provided"}`, the transcript is unchanged, and the result
does not depend on the upstream at all (`call_gemini_api` is never reached). -/
theorem missing_message_400 (h : Transcript) (m : Option String)
    (up : UpstreamResult) (hm : m = none ∨ m = some "") :
    chat h m up
      = (h, { status := 400, body := RouteBody.errorField "No message provided" }) ∧
    ∀ up2, chat h m up = chat h m up2 := by
  rcases hm with rfl | rfl <;> exact ⟨rfl, fun up2 => rfl⟩

/-- Witness for C8 at a concrete empty body. -/
theorem missing_message_400_witness :
    chat [] none (UpstreamResult.transportFailure "boom")
      = ([], { status := 400, body := RouteBody.errorField "No message provided" }) ∧
    ∀ up2, chat [] none (UpstreamResult.transportFailure "boom") = chat [] none up2 :=
  missing_message_400 [] none (UpstreamResult.transportFailure "boom") (Or.inl rfl)

/-- C1, counterexample: on a 200 response whose first candidate has
`finishReason = "SAFETY"`, the `/chat` boundary answers with status 200 (the
refusal string is a plain `return`, so the route wraps it as a normal
`{response: ...}`), not with the claimed 500. -/
theorem safety_block_not_500 :
    (chat [] (some "Hello")
        (UpstreamResult.response 200 (some sampleSafetyBody))).2.status = 200 ∧
    (chat [] (some "Hello")
        (UpstreamResult.response 200 (some sampleSafetyBody))).2
      ≠ { status := 500, body := RouteBody.errorField safetyRefusal } := by
  refine ⟨rfl, fun hc => ?_⟩
  have : (200 : ℕ) = 500 := congrArg RouteResult.status hc
  simp at this

/-- C1 as amended: on a 200 response whose first candidate has
`finishReason = "SAFETY"`, the `/chat` boundary delivers the fixed
safety-refusal string with status 200 in a `{response: ...}` body, and the
transcript grows by exactly the one user turn. -/
theorem safety_block_http_boundary (h : Transcript) (msg : String)
    (co : Option RespContent) (rest : List RespCandidate)
    (err : Option ErrField) (hmsg : msg ≠ "") :
    chat h (some msg)
        (UpstreamResult.response 200 (some
          { candidates := some
              ({ finishReason := some "SAFETY", content := co } :: rest),
            error := err }))
      = (h ++ [mkTurn "user" msg],
         { status := 200, body := RouteBody.responseField safetyRefusal }) := by
  simp [chat, hmsg, call_gemini_api, classify200, pyResult]

/-- Witness for the amended C1 at a concrete input. -/
theorem safety_block_http_boundary_witness :
    chat [] (some "Hello")
        (UpstreamResult.response 200 (some sampleSafetyBody))
      = ([mkTurn "user" "Hello"],
         { status := 200, body := RouteBody.responseField safetyRefusal }) := by
  have := safety_block_http_boundary [] "Hello" none [] none (by decide)
  simpa [sampleSafetyBody] using this

/-- C2, counterexample: a 200 response whose first candidate has a present
but empty `parts` list does not give the `empty` outcome; `parts[0]` raises
an `IndexError`, which the embedding records as a `crash`. -/
theorem empty_parts_crashes :
    (call_gemini_api [] "Hello"
        (UpstreamResult.response 200 (some sampleEmptyPartsBody))).2.2
      = Outcome.crash "list index out of range" ∧
    (call_gemini_api [] "Hello"
        (UpstreamResult.response 200 (some sampleEmptyPartsBody))).2.2
      ≠ Outcome.empty := by
  exact ⟨rfl, by simp [call_gemini_api, classify200, sampleEmptyPartsBody]⟩

/-- C2 as amended: a 200 response with no candidates (key absent or empty
list), or whose non-safety-blocked first candidate has no `content` key or no
`parts` key, yields the `empty` outcome with no model turn appended (the
transcript is the old one plus the user turn); a present but empty `parts`
list instead raises an error. -/
theorem structurally_absent_gives_empty (h : Transcript) (msg : String)
    (b : JsonBody) (hb : emptyShape b) :
    call_gemini_api h msg (UpstreamResult.response 200 (some b))
      = (h ++ [mkTurn "user" msg], buildPayload (h ++ [mkTurn "user" msg]),
         Outcome.empty) := by
  rcases hb with hc | hc | ⟨c, rest, hc, hfr, hco⟩
  · simp [call_gemini_api, classify200, hc]
  · simp [call_gemini_api, classify200, hc]
  · rcases hco with hco | ⟨cc, hcc, hps⟩
    · simp [call_gemini_api, classify200, hc, hfr, hco]
    · simp [call_gemini_api, classify200, hc, hfr, hcc, hps]

/-- Witness for the amended C2 at a body with no `candidates` key. -/
theorem structurally_absent_gives_empty_witness :
    call_gemini_api [] "Hello"
        (UpstreamResult.response 200 (some { candidates := none, error := none }))
      = ([mkTurn "user" "Hello"], buildPayload [mkTurn "user" "Hello"],
         Outcome.empty) := by
  have := structurally_absent_gives_empty [] "Hello"
    { candidates := none, error := none } (Or.inl rfl)
  simpa using this

/-- C7: a non-200 status yields the `upstreamError` outcome carrying the
message parsed from the error body when every step of the parse succeeds and
the generic `"API Error <status>"` string otherwise, appends no model turn,
and the `/chat` boundary answers 500 with that message. -/
theorem non_200_upstream_error (h : Transcript) (msg : String) (status : ℕ)
    (body : Option JsonBody) (hmsg : msg ≠ "") (hst : status ≠ 200) :
    (call_gemini_api h msg (UpstreamResult.response status body)).2.2
      = Outcome.upstreamError (extractErrorMessage status body) ∧
    (call_gemini_api h msg (UpstreamResult.response status body)).1
      = h ++ [mkTurn "user" msg] ∧
    chat h (some msg) (UpstreamResult.response status body)
      = (h ++ [mkTurn "user" msg],
         { status := 500,
           body := RouteBody.errorField (extractErrorMessage status body) }) ∧
    (∀ j e m, body = some j → j.error = some e → e.message = some m →
      extractErrorMessage status body = m) ∧
    ((body = none ∨ ∃ j, body = some j ∧ (j.error = none ∨
        ∃ e, j.error = some e ∧ e.message = none)) →
      extractErrorMessage status body = "API Error " ++ toString status) := by
  refine ⟨by simp [call_gemini_api, hst], by simp [call_gemini_api, hst],
    by simp [chat, hmsg, call_gemini_api, hst, pyResult], ?_, ?_⟩
  · rintro j e m rfl he hm
    simp [extractErrorMessage, he, hm]
  · rintro (rfl | ⟨j, rfl, he⟩)
    · rfl
    · rcases he with he | ⟨e, he, hm⟩
      · simp [extractErrorMessage, he]
      · simp [extractErrorMessage, he, hm]

/-- Witness for C7 at a concrete 403 with a parsed error message. -/
theorem non_200_upstream_error_witness :
    (call_gemini_api [] "Hello"
        (UpstreamResult.response 403 (some
          { candidates := none, error := some { message := some "Forbidden" } }))).2.2
      = Outcome.upstreamError "Forbidden" ∧
    chat [] (some "Hello")
        (UpstreamResult.response 403 (some
          { candidates := none, error := some { message := some "Forbidden" } }))
      = ([mkTurn "user" "Hello"],
         { status := 500, body := RouteBody.errorField "Forbidden" }) := by
  have := non_200_upstream_error [] "Hello" 403
    (some { candidates := none, error := some { message := some "Forbidden" } })
    (by decide) (by decide)
  exact ⟨this.1, by simpa using this.2.2.1⟩

/-- C10: only the exact string `"SAFETY"` triggers the blocked outcome: any
other `finishReason` (absent, or any other value) together with a structurally
present content path is a normal success — the text is extracted, appended as
a model turn, and returned as a `reply`. -/
theorem non_safety_finish_reason_reply (h : Transcript) (msg : String)
    (fr : Option String) (t : String) (ptl : List RespPart)
    (rest : List RespCandidate) (err : Option ErrField)
    (hfr : fr ≠ some "SAFETY") :
    call_gemini_api h msg (UpstreamResult.response 200 (some
        { candidates := some
            ({ finishReason := fr,
               content := some { parts := some ({ text := some t } :: ptl) } } :: rest),
          error := err }))
      = (h ++ [mkTurn "user" msg, mkTurn "model" t],
         buildPayload (h ++ [mkTurn "user" msg]),
         Outcome.reply t) := by
  simp [call_gemini_api, classify200, hfr]

/-- Witness for C10 with `finishReason = "MAX_TOKENS"`. -/
theorem non_safety_finish_reason_reply_witness :
    call_gemini_api [] "Hello"
        (UpstreamResult.response 200 (some
          { candidates := some
              [{ finishReason := some "MAX_TOKENS",
                 content := some { parts := some [{ text := some "Greetings." }] } }],
            error := none }))
      = ([mkTurn "user" "Hello", mkTurn "model" "Greetings."],
         buildPayload [mkTurn "user" "Hello"],
         Outcome.reply "Greetings.") := by
  have := non_safety_finish_reason_reply [] "Hello" (some "MAX_TOKENS")
    "Greetings." [] [] none (by decide)
  simpa using this

/-- C3: starting from the empty transcript, a sequence of N calls that all
end in a `reply` leaves a transcript of length exactly 2N, consisting in call
order of one user turn followed by one model turn per call. -/
theorem transcript_growth (calls : List (String × UpstreamResult))
    (hok : ∀ o ∈ (runCalls [] calls).2, ∃ t, o = Outcome.reply t) :
    (runCalls [] calls).1.length = 2 * calls.length ∧
    ∃ replies : List String, replies.length = calls.length ∧
      (runCalls [] calls).1 = exchangeList ((calls.map Prod.fst).zip replies) := by
  obtain ⟨replies, hlen, hshape⟩ := runCalls_reply_shape calls [] hok
  have hshape2 : (runCalls [] calls).1
      = exchangeList ((calls.map Prod.fst).zip replies) := by simpa using hshape
  refine ⟨?_, replies, hlen, hshape2⟩
  rw [hshape2, exchangeList_length]
  simp [hlen]

/-- Witness for C3 with one successful call. -/
theorem transcript_growth_witness :
    (runCalls []
        [("Hello", UpstreamResult.response 200 (some sampleOkBody))]).1.length
      = 2 * 1 ∧
    ∃ replies : List String, replies.length = 1 ∧
      (runCalls []
          [("Hello", UpstreamResult.response 200 (some sampleOkBody))]).1
        = exchangeList
            (([("Hello", UpstreamResult.response 200 (some sampleOkBody))].map
                Prod.fst).zip replies) := by
  have hok : ∀ o ∈ (runCalls []
      [("Hello", UpstreamResult.response 200 (some sampleOkBody))]).2,
      ∃ t, o = Outcome.reply t := by
    intro o ho
    have : o = Outcome.reply "Greetings." := by
      simpa [runCalls, call_gemini_api, classify200, sampleOkBody] using ho
    exact ⟨"Greetings.", this⟩
  have := transcript_growth
    [("Hello", UpstreamResult.response 200 (some sampleOkBody))] hok
  simpa using this

end Hal9000
